import Mathlib

/-!
Verification of the clause-segmentation and proof-text association pipeline of
the Westminster Standards extraction scripts.

Shallow embedding conventions:
  - Python strings are Lean strings (lists of characters); Python float font
    sizes appear only in comparisons, so they are embedded as rationals.
  - Python regular-expression scans are embedded as explicit left-to-right
    scanners with the exact backtracking behaviour of the concrete patterns
    (justified case by case in the comments).
  - File and network I/O is embedded by explicit values: a run that writes its
    output file returns some output, a run that aborts returns none; an HTTP
    response body is an explicit parameter.
-/

/-! ## Common text utilities (clean_text / normalization / str helpers) -/

/-- Python whitespace class: the characters matched by the regex class \s
and stripped by str.strip (space, tab, newline, carriage return,
vertical tab, form feed). -/
def pySpace (c : Char) : Bool :=
  c = ' ' || c = '\t' || c = '\n' || c = '\r' || c = '\x0b' || c = '\x0c'

/-- str.strip on a character list: drop leading and trailing whitespace. -/
def stripL (l : List Char) : List Char :=
  ((l.dropWhile pySpace).reverse.dropWhile pySpace).reverse

/-- Python str.strip. -/
def pyStrip (s : String) : String := ⟨stripL s.data⟩

theorem dropWhile_length_le {α : Type} (p : α → Bool) (l : List α) :
    (l.dropWhile p).length ≤ l.length := by
  induction l with
  | nil => simp
  | cons c cs ih =>
    by_cases h : p c
    · simpa [List.dropWhile, h] using Nat.le_succ_of_le ih
    · simp [List.dropWhile, h]

/-- Character-by-character form of re.sub(r"\s+", " ", text): the first
whitespace character of a run emits one space, the rest of the run is
skipped (the flag records whether the previous character was whitespace). -/
def collapseGo (prevSpace : Bool) : List Char → List Char
  | [] => []
  | c :: cs =>
    if pySpace c then
      if prevSpace then collapseGo true cs else ' ' :: collapseGo true cs
    else c :: collapseGo false cs

/-- The substitution re.sub(r"\s+", " ", text): every maximal run of
whitespace is replaced by a single space. -/
def collapseWS (l : List Char) : List Char := collapseGo false l

/-- clean_text from extract_larger_catechism_with_font_filtering.py, which is
also the whitespace normalization used by verify_text_preservation in
extract_larger_catechism_clauses.py: re.sub(r"\s+", " ", text).strip(). -/
def cleanText (s : String) : String := ⟨stripL (collapseWS s.data)⟩

/-- Python str.isdigit for ASCII text: non-empty and every character a digit. -/
def isdigitStr (s : String) : Bool :=
  !s.data.isEmpty && s.data.all Char.isDigit

/-- Value of a decimal digit character. -/
def digitVal (c : Char) : ℕ := c.toNat - 48

/-- Python int() on a string of decimal digits. -/
def toNatL (l : List Char) : ℕ := l.foldl (fun a c => a * 10 + digitVal c) 0

/-- Python dict lookup for a dict built from an association-list literal:
later bindings of the same key win. -/
def dlookup {κ α : Type} [DecidableEq κ] (l : List (κ × α)) (k : κ) : Option α :=
  (l.reverse.find? (fun p => decide (p.1 = k))).map (·.2)

namespace FontFiltering

/-!
Embedding of extract_clauses_from_answer (and the span filter shared with
extract_catechism_with_font_filtering) from
src/extract_larger_catechism_with_font_filtering.py.
Only the text and the font size of a span take part in the logic.
-/

/-- One PDF text span: text plus font size (the font name is never consulted
by the clause logic). -/
structure Span where
  text : String
  size : ℚ
deriving DecidableEq

/-- One extracted clause: cleaned text plus optional footnote number. -/
structure Clause where
  text : String
  footnote : Option ℕ
deriving DecidableEq

/-- The page-number font threshold 9.5 of the source, as an explicit
reduced fraction 19/2. -/
def pageNumberSize : ℚ := ⟨19, 2, by decide, by decide⟩

/-- The span-collection step of extract_clauses_from_answer (and of the main
text pass, lines 33-47): each span text is stripped, and a span whose stripped
text is purely numeric with font size at least 9.5 is discarded as a page
number; every other span is kept. -/
def collectAnswerSpans (raw : List Span) : List Span :=
  raw.filterMap (fun sp =>
    let t := pyStrip sp.text
    if isdigitStr t = true ∧ pageNumberSize ≤ sp.size then none
    else some ⟨t, sp.size⟩)

/-- Marker test of the clause loop: purely numeric text in a font smaller
than 9.0 points. -/
def isMarkerSpan (sp : Span) : Bool :=
  isdigitStr sp.text && decide (sp.size < 9)

/-- The clause loop of extract_clauses_from_answer: body spans are appended
to the running buffer as " " + text; a marker span first emits the buffer
(when its strip is non-empty) as a clause carrying the CURRENT footnote
number, then resets the buffer and makes the marker value the current
footnote number; at stream end a non-blank buffer is emitted with the
current footnote number. -/
def extractLoop : List Span → String → Option ℕ → List Clause
  | [], buf, fn =>
    if pyStrip buf ≠ "" then [⟨cleanText buf, fn⟩] else []
  | sp :: rest, buf, fn =>
    if isMarkerSpan sp = true then
      (if pyStrip buf ≠ "" then [⟨cleanText buf, fn⟩] else [])
        ++ extractLoop rest "" (some (toNatL sp.text.data))
    else
      extractLoop rest (buf ++ " " ++ sp.text) fn

/-- extract_clauses_from_answer on an answer span stream: collect (strip and
page-number filter) then run the clause loop from an empty buffer and no
current footnote. -/
def extractClausesFromAnswer (raw : List Span) : List Clause :=
  extractLoop (collectAnswerSpans raw) "" none

/-- The running clause buffer after appending a chunk of body spans. -/
def bufOf (buf : String) (ch : List Span) : String :=
  ch.foldl (fun b sp => b ++ " " ++ sp.text) buf

/-- The emission step: a buffer is emitted as one clause with the given
footnote number if its strip is non-empty, otherwise nothing. -/
def emitClause (buf : String) (fn : Option ℕ) : List Clause :=
  if pyStrip buf ≠ "" then [⟨cleanText buf, fn⟩] else []

/-- A stream decomposed as alternating markers and body chunks. -/
def flatSegs (segs : List (Span × List Span)) : List Span :=
  segs.flatMap (fun p => p.1 :: p.2)

/-- The clause list the loop produces on a decomposed stream: at each marker
the pending buffer is emitted with the PREVIOUS footnote number, and the
final buffer is emitted with the LAST marker's number. -/
def ffExpected (fn : Option ℕ) (buf : String) : List (Span × List Span) → List Clause
  | [] => emitClause buf fn
  | (m, ch) :: rest =>
    emitClause buf fn ++ ffExpected (some (toNatL m.text.data)) (bufOf "" ch) rest

theorem extractLoop_bodyChunk (ch : List Span) (ts : List Span) (buf : String)
    (fn : Option ℕ) (h : ∀ sp ∈ ch, isMarkerSpan sp = false) :
    extractLoop (ch ++ ts) buf fn = extractLoop ts (bufOf buf ch) fn := by
  induction ch generalizing buf with
  | nil => simp [bufOf]
  | cons sp ch ih =>
    have hsp : isMarkerSpan sp = false := h sp (by simp)
    have step : extractLoop ((sp :: ch) ++ ts) buf fn
        = extractLoop (ch ++ ts) (buf ++ " " ++ sp.text) fn := by
      simp only [List.cons_append, extractLoop, hsp]
      rw [if_neg (by simp)]
      rfl
    rw [step, ih _ (fun x hx => h x (by simp [hx]))]
    simp [bufOf]

theorem extractLoop_segs (segs : List (Span × List Span)) (buf : String)
    (fn : Option ℕ)
    (hm : ∀ p ∈ segs, isMarkerSpan p.1 = true ∧ ∀ sp ∈ p.2, isMarkerSpan sp = false) :
    extractLoop (flatSegs segs) buf fn = ffExpected fn buf segs := by
  induction segs generalizing buf fn with
  | nil => simp [flatSegs, ffExpected, extractLoop, emitClause]
  | cons p rest ih =>
    obtain ⟨m, ch⟩ := p
    have hmk : isMarkerSpan m = true := (hm (m, ch) (by simp)).1
    have hbody : ∀ sp ∈ ch, isMarkerSpan sp = false := (hm (m, ch) (by simp)).2
    have hflat : flatSegs ((m, ch) :: rest) = m :: (ch ++ flatSegs rest) := by
      simp [flatSegs]
    rw [hflat]
    have step : extractLoop (m :: (ch ++ flatSegs rest)) buf fn
        = (if pyStrip buf ≠ "" then [⟨cleanText buf, fn⟩] else [])
          ++ extractLoop (ch ++ flatSegs rest) "" (some (toNatL m.text.data)) := by
      simp only [extractLoop]
      rw [if_pos hmk]
    rw [step, extractLoop_bodyChunk ch _ "" _ hbody,
      ih _ _ (fun q hq => hm q (by simp [hq]))]
    simp [ffExpected, emitClause]

end FontFiltering

namespace FixV5

/-!
Embedding of WestminsterProofTextFixerV5 from src/fix_proof_texts_v5.py:
extract_endnote_markers, split_answer_into_clauses, populate_proof_texts and
the write-always shape of fix_all_proof_texts.
-/

/-- One proof text: scripture reference plus quotation. -/
structure PT where
  reference : String
  text : String
deriving DecidableEq

/-- One clause of the v5 fixer: text, optional footnote number, proof texts. -/
structure V5Clause where
  text : String
  footnoteNum : Option ℕ
  proofTexts : List PT
deriving DecidableEq

/-- Python str.find as a scan for the first occurrence of the needle,
none standing for the -1 of a failed find. -/
def findSubAux (needle : List Char) : List Char → ℕ → Option ℕ
  | [], i => if needle.isPrefixOf ([] : List Char) then some i else none
  | c :: t, i =>
    if needle.isPrefixOf (c :: t) then some i else findSubAux needle t (i + 1)

/-- Python str.find. -/
def pyFind (hay needle : String) : Option ℕ := findSubAux needle.data hay.data 0

/-- The scan of re.finditer over the marker pattern (\d+)(?=\s|$): a match
is a maximal digit run whose following character is whitespace or the end of
the string.  A run followed by anything else matches at none of its
positions (shortening \d+ leaves a digit in the lookahead, and later starts
are sub-runs with the same failing lookahead), so scanning per maximal run
is exact.  The accumulator holds the reversed digits of the current run. -/
def endnoteGo (run : List Char) : List Char → List ℕ
  | [] => if run.isEmpty then [] else [toNatL run.reverse]
  | c :: cs =>
    if c.isDigit then endnoteGo (c :: run) cs
    else if !run.isEmpty && pySpace c then toNatL run.reverse :: endnoteGo [] cs
    else endnoteGo [] cs

/-- All matches of (\d+)(?=\s|$) on a character list. -/
def endnoteScan (l : List Char) : List ℕ := endnoteGo [] l

/-- extract_endnote_markers: all matches of (\d+)(?=\s|$) in the answer. -/
def extractEndnoteMarkers (s : String) : List ℕ := endnoteScan s.data

/-- Python slice s[a:b] on a character list, as a string. -/
def sliceStr (l : List Char) (a b : ℕ) : String := ⟨(l.drop a).take (b - a)⟩

/-- marker_positions of split_answer_into_clauses: for each marker, the first
occurrence of its decimal string in the answer, markers that are not found
(find = -1) dropped. -/
def markerPositions (answer : String) (markers : List ℕ) : List (ℕ × ℕ) :=
  markers.filterMap (fun m => (pyFind answer (toString m)).map (fun p => (p, m)))

/-- Stable insertion step for sorting by position (list.sort with key,
Python sort is stable). -/
def insertByPos (x : ℕ × ℕ) : List (ℕ × ℕ) → List (ℕ × ℕ)
  | [] => [x]
  | y :: ys => if y.1 < x.1 then y :: insertByPos x ys else x :: y :: ys

/-- Stable sort of marker positions by position. -/
def sortByPos : List (ℕ × ℕ) → List (ℕ × ℕ)
  | [] => []
  | x :: xs => insertByPos x (sortByPos xs)

/-- The main loop of split_answer_into_clauses: one clause per found marker,
its text the stripped slice from the current position to the marker position,
its footnote number the marker value; the position then moves past the
marker digits.  Returns the clauses and the final current position. -/
def mainLoop (answer : List Char) : ℕ → List (ℕ × ℕ) → List V5Clause × ℕ
  | cur, [] => ([], cur)
  | cur, (p, m) :: rest =>
    let cls : V5Clause := ⟨pyStrip (sliceStr answer cur p), some m, []⟩
    let r := mainLoop answer (p + (toString m).length) rest
    (cls :: r.1, r.2)

/-- The trailing-text handling of split_answer_into_clauses: remaining text
after the last marker is stripped; if it still contains an endnote marker it
is split once more at that marker, otherwise it becomes a final clause with a
null footnote number. -/
def tailClauses (answer : List Char) (cur : ℕ) : List V5Clause :=
  if cur < answer.length then
    if pyStrip ⟨answer.drop cur⟩ ≠ "" then
      match extractEndnoteMarkers (pyStrip ⟨answer.drop cur⟩) with
      | [] => [⟨pyStrip ⟨answer.drop cur⟩, none, []⟩]
      | first :: _ =>
        match pyFind (pyStrip ⟨answer.drop cur⟩) (toString first) with
        | some mp =>
          (if pyStrip (sliceStr (pyStrip ⟨answer.drop cur⟩).data 0 mp) ≠ "" then
            [⟨pyStrip (sliceStr (pyStrip ⟨answer.drop cur⟩).data 0 mp), some first, []⟩]
           else [])
            ++ (if pyStrip ⟨(pyStrip ⟨answer.drop cur⟩).data.drop
                  (mp + (toString first).length)⟩ ≠ "" then
                [⟨pyStrip ⟨(pyStrip ⟨answer.drop cur⟩).data.drop
                  (mp + (toString first).length)⟩, none, []⟩]
               else [])
        | none => [⟨pyStrip ⟨answer.drop cur⟩, none, []⟩]
    else []
  else []

/-- split_answer_into_clauses: no markers gives one clause holding the whole
stripped answer with a null footnote number; otherwise the found markers are
sorted by position, the main loop runs, and the trailing text is handled. -/
def splitAnswerIntoClauses (answer : String) (markers : List ℕ) : List V5Clause :=
  if markers = [] then [⟨pyStrip answer, none, []⟩]
  else
    (mainLoop answer.data 0 (sortByPos (markerPositions answer markers))).1
      ++ tailClauses answer.data
          (mainLoop answer.data 0 (sortByPos (markerPositions answer markers))).2

/-- populate_proof_texts on one clause.  Python tests "if footnote_num and
footnote_num in footnotes", so a footnote number of 0 is falsy and takes the
empty-list branch exactly like None; an absent nonzero number receives the
single sentinel proof text. -/
def populateClause (fns : List (ℕ × List PT)) (c : V5Clause) : V5Clause :=
  match c.footnoteNum with
  | none => { c with proofTexts := [] }
  | some n =>
    if n = 0 then { c with proofTexts := [] }
    else
      match dlookup fns n with
      | some pts => { c with proofTexts := pts }
      | none => { c with proofTexts :=
          [⟨"ERROR: Footnote not found",
            "Footnote " ++ toString n ++ " not found in extracted footnotes"⟩] }

/-- populate_proof_texts over the clause list of one question. -/
def populateProofTexts (clauses : List V5Clause) (fns : List (ℕ × List PT)) : List V5Clause :=
  clauses.map (populateClause fns)

/-- process_question on one answer: extract markers, split, populate. -/
def processAnswer (fns : List (ℕ × List PT)) (answer : String) : List V5Clause :=
  populateProofTexts (splitAnswerIntoClauses answer (extractEndnoteMarkers answer)) fns

/-- Insertion into a sorted duplicate-free list, for sorted(list(set(x))). -/
def insertSortedDedup (n : ℕ) : List ℕ → List ℕ
  | [] => [n]
  | m :: ms =>
    if n = m then m :: ms
    else if n < m then n :: m :: ms
    else m :: insertSortedDedup n ms

/-- sorted(list(set(l))). -/
def sortedDedup (l : List ℕ) : List ℕ := l.foldl (fun acc n => insertSortedDedup n acc) []

/-- The result data fix_all_proof_texts serializes: the processed clause
lists and the missing-footnotes diagnostic. -/
structure V5Output where
  clauses : List (List V5Clause)
  missingFootnotes : List ℕ
deriving DecidableEq

/-- fix_all_proof_texts on parsed inputs.  Writing the output file is
modelled by returning some output: every control path of the Python function
writes the output file (even its exception handlers dump a diagnostics JSON
to the output path), so the function is total in its write and no check
gates it; markers absent from the footnote table are merely recorded in the
missing_footnotes diagnostic. -/
def fixAllProofTexts (fns : List (ℕ × List PT)) (answers : List String) : Option V5Output :=
  some
    { clauses := answers.map (processAnswer fns),
      missingFootnotes := sortedDedup (answers.flatMap (fun a =>
        (extractEndnoteMarkers a).filter (fun m => (dlookup fns m).isNone))) }

end FixV5

namespace LCClauses

/-!
Embedding of src/extract_larger_catechism_clauses.py: the footnote-number
scan, split_answer_into_clauses, the three verifiers, and the all-or-nothing
main gate.
-/

/-- One input question: number, prompt, answer. -/
structure QA where
  question : ℕ
  question_text : String
  answer : String
deriving DecidableEq

/-- One clause of this script: text plus optional footnote number. -/
structure LClause where
  text : String
  footnote : Option ℕ
deriving DecidableEq

/-- One output question with its clauses. -/
structure QC where
  question : ℕ
  clauses : List LClause
deriving DecidableEq

/-- The regex word class \w. -/
def wordChar (c : Char) : Bool := c.isAlphanum || c = '_'

/-- Scan of re.finditer for \b(\d{1,4})\b, optionally with the trailing
negative lookahead (?!\.) used by split_answer_into_clauses.  A match is a
maximal digit run of length at most 4 that starts at a word boundary and
whose following character is neither a word character nor (with the
lookahead) a period.  Runs longer than 4 digits match nowhere: every
shortened attempt leaves a digit after the run, and interior positions have
no leading word boundary.  Returns (start, end, value) triples. -/
def numGo (noDot : Bool) : Bool → List Char → ℕ → ℕ → List Char → List (ℕ × ℕ × ℕ)
  | prevW, run, runStart, i, [] =>
    if !run.isEmpty && !prevW && run.length ≤ 4
    then [(runStart, i, toNatL run.reverse)] else []
  | prevW, run, runStart, i, c :: cs =>
    if c.isDigit then
      if run.isEmpty then numGo noDot prevW [c] i (i + 1) cs
      else numGo noDot prevW (c :: run) runStart (i + 1) cs
    else
      (if !run.isEmpty && !prevW && run.length ≤ 4
          && !wordChar c && (!noDot || decide (c ≠ '.'))
       then [(runStart, i, toNatL run.reverse)] else [])
        ++ numGo noDot (wordChar c) [] 0 (i + 1) cs

/-- All matches of the pattern on a character list, scanning from the
start of the string (no preceding word character). -/
def scanNums (noDot : Bool) (l : List Char) : List (ℕ × ℕ × ℕ) :=
  numGo noDot false [] 0 0 l

/-- The numbers the regex \b(\d{1,4})\b finds in an answer
(verify_input_data). -/
def answerNums (a : String) : List ℕ := (scanNums false a.data).map (·.2.2)

/-- verify_input_data: exactly 196 questions, and the set of in-range
footnote numbers found across all answers has exactly 1303 elements.
(When the set is empty the Python function raises on min() and the run
dies without output; the model returns false, which agrees with the gate.) -/
def verifyInputData (data : List QA) : Bool :=
  if data.length ≠ 196 then false
  else
    decide
      (((data.flatMap (fun q =>
        (answerNums q.answer).filter (fun n => 1 ≤ n && n ≤ 1303))).dedup).length = 1303)

/-- footnote_positions of split_answer_into_clauses: matches of
\b(\d{1,4})\b(?!\.) whose value lies in FOOTNOTE_RANGE = 1..1303. -/
def footnotePositions (answer : String) : List (ℕ × ℕ × ℕ) :=
  (scanNums true answer.data).filter (fun t => 1 ≤ t.2.2 && t.2.2 ≤ 1303)

/-- Main loop of split_answer_into_clauses: clause i holds the stripped text
between the previous match end and this match start, with the footnote
number's decimal string appended after a space, and carries that number. -/
def lcMainLoop (answer : List Char) : ℕ → List (ℕ × ℕ × ℕ) → List LClause
  | _, [] => []
  | prevEnd, (s, e, n) :: rest =>
    ⟨pyStrip (FixV5.sliceStr answer prevEnd s) ++ " " ++ toString n, some n⟩
      :: lcMainLoop answer e rest

/-- clauses[-1]["text"] += " " + trailing_text. -/
def appendToLastClause : List LClause → String → List LClause
  | [], _ => []
  | [c], ex => [⟨c.text ++ " " ++ ex, c.footnote⟩]
  | c :: cs, ex => c :: appendToLastClause cs ex

/-- split_answer_into_clauses: with no valid footnote position the whole
stripped answer becomes one clause with a null footnote; otherwise one
clause per position, and non-blank trailing text is appended to the last
clause. -/
def lcSplit (answer : String) : List LClause :=
  let fps := footnotePositions answer
  match fps with
  | [] => [⟨pyStrip answer, none⟩]
  | _ =>
    let clauses := lcMainLoop answer.data 0 fps
    let lastEnd := ((fps.getLast?).map (fun t => t.2.1)).getD 0
    let trailing := pyStrip ⟨answer.data.drop lastEnd⟩
    if trailing ≠ "" then appendToLastClause clauses trailing else clauses

/-- The non-null footnote numbers of all clauses in document order. -/
def collectedFootnotes (qs : List QC) : List ℕ :=
  qs.flatMap (fun q => q.clauses.filterMap (·.footnote))

/-- The seen-set / duplicate-list fold of verify_clause_extraction:
a number already seen goes to the duplicate list, otherwise to the seen
list. -/
def dupScan : List ℕ → List ℕ → List ℕ → List ℕ × List ℕ
  | [], seen, dups => (seen, dups)
  | n :: ns, seen, dups =>
    if n ∈ seen then dupScan ns seen (dups ++ [n])
    else dupScan ns (seen ++ [n]) dups

/-- all_footnotes of verify_clause_extraction. -/
def seenFootnotes (qs : List QC) : List ℕ := (dupScan (collectedFootnotes qs) [] []).1

/-- duplicate_footnotes of verify_clause_extraction. -/
def duplicateFootnotes (qs : List QC) : List ℕ := (dupScan (collectedFootnotes qs) [] []).2

/-- missing_footnotes = set(FOOTNOTE_RANGE) - all_footnotes. -/
def missingFootnotes (qs : List QC) : List ℕ :=
  (List.range' 1 1303).filter (fun n => decide (¬ n ∈ seenFootnotes qs))

/-- Total number of clauses across all questions. -/
def totalClauses (qs : List QC) : ℕ := (qs.map (fun q => q.clauses.length)).sum

/-- An answer without footnotes: exactly one clause, with a null footnote. -/
def isNoFootnoteAnswer (q : QC) : Bool :=
  match q.clauses with
  | [c] => decide (c.footnote = none)
  | _ => false

/-- answers_without_footnotes of verify_clause_extraction. -/
def answersWithoutFootnotes (qs : List QC) : ℕ := (qs.filter isNoFootnoteAnswer).length

/-- verify_clause_extraction: count check, then missing-footnote check, then
duplicate check; false (with the offending numbers reported) on the first
failure. -/
def verifyClauseExtraction (qs : List QC) : Bool :=
  if totalClauses qs ≠ 1303 + answersWithoutFootnotes qs then false
  else if missingFootnotes qs ≠ [] then false
  else if duplicateFootnotes qs ≠ [] then false
  else true

/-- verify_text_preservation: for every (original, clause-split) question
pair, the normalized space-join of the clause texts must equal the
normalized original answer. -/
def verifyTextPreservation (data : List QA) (qs : List QC) : Bool :=
  (data.zip qs).all (fun p =>
    decide (cleanText p.1.answer
      = cleanText (String.intercalate " " (p.2.clauses.map (·.text)))))

/-- The clause extraction step of main. -/
def clausesOf (data : List QA) : List QC :=
  data.map (fun q => ⟨q.question, lcSplit q.answer⟩)

/-- main: the three verifications in order; the output file is written
(some) only when all pass, and any failure returns before the write
(none). -/
def mainRun (data : List QA) : Option (List QC) :=
  if verifyInputData data = true then
    let all := clausesOf data
    if verifyClauseExtraction all = true then
      if verifyTextPreservation data all = true then some all else none
    else none
  else none

end LCClauses

namespace ShorterFontBased

/-!
Embedding of the gap check of main in
src/extract_shorter_catechism_font_based.py (lines 186-197): with no
footnotes the run returns early without writing; otherwise the numbers
missing between the observed minimum and maximum are computed and printed,
and the run continues to extract references and write the output file
regardless.  The returned value is the missing list; some = output written.
-/

/-- The gap check and the continuation of main.  none models the early
"No footnotes found!" return (no output file); some missing models the run
that prints the missing numbers and writes the output anyway. -/
def shorterGapCheck (numbers : List ℕ) : Option (List ℕ) :=
  match numbers with
  | [] => none
  | n :: ns =>
    let lo := ns.foldl Nat.min n
    let hi := ns.foldl Nat.max n
    some ((List.range' lo (hi + 1 - lo)).filter (fun i => decide (¬ i ∈ numbers)))

end ShorterFontBased

namespace Scraper

/-!
Embedding of BibleAPIFetcher from src/westminster_confession_scraper.py:
_rate_limit and the cache logic of get_verse_text.  Wall-clock time is an
explicit rational parameter; time.sleep(d) makes the request go out d
seconds later.
-/

/-- The limiter state: request_count and last_request_time
(initialized to 0 and 0). -/
structure RL where
  count : ℕ
  last : ℚ
deriving DecidableEq

/-- Initial fetcher limiter state. -/
def initRL : RL := ⟨0, 0⟩

/-- _rate_limit called at time now, followed by the request itself: returns
the time at which the request is actually issued and the new state.  More
than 30 seconds since the window start resets the counter and restarts the
window (without sleeping); a counter at 14 or more makes the caller sleep
until 31 seconds past the window start (when that lies in the future) and
then restart; finally the counter is incremented. -/
def rateLimitStep (s : RL) (now : ℚ) : ℚ × RL :=
  let cnt : ℕ := if now - s.last > 30 then 0 else s.count
  let lst : ℚ := if now - s.last > 30 then now else s.last
  if cnt ≥ 14 then
    let sleep := 31 - (now - lst)
    if sleep > 0 then (now + sleep, ⟨1, now + sleep⟩)
    else (now, ⟨cnt + 1, lst⟩)
  else (now, ⟨cnt + 1, lst⟩)

/-- A sequential run of requests arriving at the given times: the issue
times of all requests. -/
def runIssues : RL → List ℚ → List ℚ
  | _, [] => []
  | s, t :: ts =>
    let r := rateLimitStep s t
    r.1 :: runIssues r.2 ts

/-- How many issued requests fall in the 30-second window starting at t. -/
def windowCount (issues : List ℚ) (t : ℚ) : ℕ :=
  (issues.filter (fun x => decide (t ≤ x ∧ x ≤ t + 30))).length

/-- Fetcher state: the in-memory cache plus the limiter state. -/
structure Fetcher where
  cache : List (String × String)
  rl : RL
deriving DecidableEq

/-- get_verse_text at time now.  The api argument is the verse text the
remote call would produce (some) or a failure (none, the exception path,
which caches nothing).  The Bool records whether an HTTP request was
issued: a cache hit returns immediately, before _rate_limit and before
requests.get, so it issues none and leaves the state unchanged. -/
def getVerseText (f : Fetcher) (ref : String) (now : ℚ) (api : Option String) :
    Option String × Fetcher × Bool :=
  match dlookup f.cache ref with
  | some t => (some t, f, false)
  | none =>
    let r := rateLimitStep f.rl now
    match api with
    | some result => (some result, ⟨f.cache ++ [(ref, result)], r.2⟩, true)
    | none => (none, ⟨f.cache, r.2⟩, true)

end Scraper

namespace FetchScriptures

/-!
Embedding of ScriptureFetcher.parse_reference together with
_setup_book_mapping from src/fetch_scriptures.py.  Each concrete regex of
the function is embedded as a scanner with its exact backtracking
behaviour: greedy character classes in these patterns never need to give
characters back, because every class is followed by a literal outside the
class, and the optional leading [1-3]? can only fail together with the
whole alternative (a digit is not a letter).
-/

/-- The second stage of the pattern ([1-3]?[A-Za-z]+)\.(\d+)\.(\d+) after
the book group: a period, digits, a period, digits; on success returns the
replacement text book + " " + chapter + ":" + verse and the rest of the
input. -/
def dotTail (book : List Char) : List Char → Option (List Char × List Char)
  | '.' :: r1 =>
    let d1 := r1.takeWhile Char.isDigit
    let r2 := r1.dropWhile Char.isDigit
    if d1.isEmpty then none
    else
      match r2 with
      | '.' :: r3 =>
        let d2 := r3.takeWhile Char.isDigit
        let r4 := r3.dropWhile Char.isDigit
        if d2.isEmpty then none
        else some (book ++ [' '] ++ d1 ++ [':'] ++ d2, r4)
      | _ => none
  | _ => none

/-- One attempt of the dot-notation pattern at the current position. -/
def tryDotMatch : List Char → Option (List Char × List Char)
  | [] => none
  | c :: cs =>
    if c = '1' || c = '2' || c = '3' then
      let letters := cs.takeWhile Char.isAlpha
      if letters.isEmpty then none
      else dotTail (c :: letters) (cs.dropWhile Char.isAlpha)
    else if c.isAlpha then
      dotTail ((c :: cs).takeWhile Char.isAlpha) ((c :: cs).dropWhile Char.isAlpha)
    else none

/-- The global scan of re.sub for the dot-notation pattern: on a match the
replacement is emitted and scanning continues after the match, otherwise
one character is copied.  Fuel is the input length; a successful match
consumes at least five characters, so the fuel never runs out. -/
def dotSubGo : ℕ → List Char → List Char
  | 0, l => l
  | _ + 1, [] => []
  | fuel + 1, c :: cs =>
    match tryDotMatch (c :: cs) with
    | some (repl, rest) => repl ++ dotSubGo fuel rest
    | none => c :: dotSubGo fuel cs

/-- re.sub of the dot-notation pattern over the whole reference. -/
def dotSub (s : String) : String := ⟨dotSubGo s.data.length s.data⟩

/-- str.replace("  ", " "): one left-to-right non-overlapping pass. -/
def replDouble : List Char → List Char
  | [] => []
  | [c] => [c]
  | c :: d :: rest =>
    if c = ' ' && d = ' ' then ' ' :: replDouble rest
    else c :: replDouble (d :: rest)

/-- The normalization prefix of parse_reference: dot-notation substitution,
then .replace(".", "").replace("  ", " ").strip().lower(). -/
def normalizeRef (s : String) : String :=
  ⟨(stripL (replDouble ((dotSub s).data.filter (fun c => decide (c ≠ '.'))))).map Char.toLower⟩

/-- _setup_book_mapping, in source order; the dict lookup below gives later
duplicate keys (such as the second "jud") precedence, as the Python dict
literal does. -/
def bookNames : List (String × ℕ) := [
  ("gen", 1), ("genesis", 1), ("exo", 2), ("exod", 2), ("exodus", 2),
  ("lev", 3), ("leviticus", 3), ("num", 4), ("numbers", 4),
  ("deu", 5), ("deut", 5), ("deuteronomy", 5), ("jos", 6), ("josh", 6), ("joshua", 6),
  ("jud", 7), ("judg", 7), ("judges", 7), ("rut", 8), ("ruth", 8),
  ("1sa", 9), ("1sam", 9), ("1samuel", 9), ("i samuel", 9), ("1 samuel", 9),
  ("2sa", 10), ("2sam", 10), ("2samuel", 10), ("ii samuel", 10), ("2 samuel", 10),
  ("1ki", 11), ("1kgs", 11), ("1kings", 11), ("i kings", 11), ("1 kings", 11),
  ("2ki", 12), ("2kgs", 12), ("2kings", 12), ("ii kings", 12), ("2 kings", 12),
  ("1ch", 13), ("1chr", 13), ("1chron", 13), ("1chronicles", 13), ("i chronicles", 13), ("1 chronicles", 13),
  ("2ch", 14), ("2chr", 14), ("2chron", 14), ("2chronicles", 14), ("ii chronicles", 14), ("2 chronicles", 14),
  ("ezr", 15), ("ezra", 15), ("neh", 16), ("nehemiah", 16),
  ("est", 17), ("esth", 17), ("esther", 17), ("job", 18),
  ("psa", 19), ("ps", 19), ("psalm", 19), ("psalms", 19),
  ("pro", 20), ("prov", 20), ("proverbs", 20),
  ("ecc", 21), ("eccl", 21), ("ecclesiastes", 21),
  ("son", 22), ("song", 22), ("songs", 22), ("songofsolomon", 22), ("song of solomon", 22),
  ("isa", 23), ("isaiah", 23), ("jer", 24), ("jeremiah", 24),
  ("lam", 25), ("lamentations", 25), ("eze", 26), ("ezek", 26), ("ezekiel", 26),
  ("dan", 27), ("daniel", 27), ("hos", 28), ("hosea", 28),
  ("joe", 29), ("joel", 29), ("amo", 30), ("amos", 30),
  ("oba", 31), ("obad", 31), ("obadiah", 31), ("jon", 32), ("jonah", 32),
  ("mic", 33), ("micah", 33), ("nah", 34), ("nahum", 34),
  ("hab", 35), ("habakkuk", 35), ("zep", 36), ("zeph", 36), ("zephaniah", 36),
  ("hag", 37), ("haggai", 37), ("zac", 38), ("zech", 38), ("zechariah", 38),
  ("mal", 39), ("malachi", 39),
  ("mat", 40), ("matt", 40), ("matthew", 40), ("mar", 41), ("mark", 41),
  ("luk", 42), ("luke", 42), ("joh", 43), ("john", 43), ("act", 44), ("acts", 44),
  ("rom", 45), ("romans", 45),
  ("1co", 46), ("1cor", 46), ("1corinthians", 46), ("i corinthians", 46), ("1 corinthians", 46),
  ("2co", 47), ("2cor", 47), ("2corinthians", 47), ("ii corinthians", 47), ("2 corinthians", 47),
  ("gal", 48), ("galatians", 48), ("eph", 49), ("ephesians", 49),
  ("phi", 50), ("phil", 50), ("philippians", 50), ("col", 51), ("colossians", 51),
  ("1th", 52), ("1thess", 52), ("1thessalonians", 52), ("i thessalonians", 52), ("1 thessalonians", 52),
  ("2th", 53), ("2thess", 53), ("2thessalonians", 53), ("ii thessalonians", 53), ("2 thessalonians", 53),
  ("1ti", 54), ("1tim", 54), ("1timothy", 54), ("i timothy", 54), ("1 timothy", 54),
  ("2ti", 55), ("2tim", 55), ("2timothy", 55), ("ii timothy", 55), ("2 timothy", 55),
  ("tit", 56), ("titus", 56), ("phm", 57), ("philem", 57), ("philemon", 57),
  ("heb", 58), ("hebrews", 58), ("jam", 59), ("jas", 59), ("james", 59),
  ("1pe", 60), ("1pet", 60), ("1peter", 60), ("i peter", 60), ("1 peter", 60),
  ("2pe", 61), ("2pet", 61), ("2peter", 61), ("ii peter", 61), ("2 peter", 61),
  ("1jo", 62), ("1john", 62), ("i john", 62), ("1 john", 62),
  ("2jo", 63), ("2john", 63), ("ii john", 63), ("2 john", 63),
  ("3jo", 64), ("3john", 64), ("iii john", 64), ("3 john", 64),
  ("jud", 65), ("jude", 65), ("rev", 66), ("revelation", 66)]

/-- self.book_names.get(book_name).  Every value in the dict is at least 1,
so "if book_num:" is true exactly when the lookup succeeds. -/
def lookupBook (b : List Char) : Option ℕ := dlookup bookNames ⟨b⟩

/-- The book group ([1-3]?[a-z]+) of the lowercased reference patterns:
an optional leading 1, 2 or 3 (only together with at least one following
letter) and a maximal run of letters. -/
def matchBook : List Char → Option (List Char × List Char)
  | [] => none
  | c :: cs =>
    if c = '1' || c = '2' || c = '3' then
      let letters := cs.takeWhile Char.isLower
      if letters.isEmpty then none
      else some (c :: letters, cs.dropWhile Char.isLower)
    else if c.isLower then
      some ((c :: cs).takeWhile Char.isLower, (c :: cs).dropWhile Char.isLower)
    else none

/-- re.match(r"([1-3]?[a-z]+)\s*(\d+)-(?:[1-3]?[a-z]+)?\s*(\d+)$", ref):
the chapter-range pattern; gives (book, start chapter, end chapter). -/
def chapterRangeMatch (l : List Char) : Option (List Char × ℕ × ℕ) :=
  match matchBook l with
  | none => none
  | some (book, r1) =>
    let r2 := r1.dropWhile pySpace
    let d1 := r2.takeWhile Char.isDigit
    let r3 := r2.dropWhile Char.isDigit
    if d1.isEmpty then none
    else
      match r3 with
      | '-' :: r4 =>
        let r5 := match matchBook r4 with
          | some (_, rr) => rr
          | none => r4
        let r6 := r5.dropWhile pySpace
        let d2 := r6.takeWhile Char.isDigit
        let r7 := r6.dropWhile Char.isDigit
        if d2.isEmpty then none
        else if r7.isEmpty then some (book, toNatL d1, toNatL d2) else none
      | _ => none

/-- re.match(r"([1-3]?[a-z]+)\s*(\d+)$", ref): the chapter-only pattern. -/
def chapterOnlyMatch (l : List Char) : Option (List Char × ℕ) :=
  match matchBook l with
  | none => none
  | some (book, r1) =>
    let r2 := r1.dropWhile pySpace
    let d1 := r2.takeWhile Char.isDigit
    let r3 := r2.dropWhile Char.isDigit
    if d1.isEmpty then none
    else if r3.isEmpty then some (book, toNatL d1) else none

/-- re.match(r"([1-3]?[a-z]+)\s*(\d+):(\d+)", ref): the unanchored
book chapter:verse prefix pattern. -/
def bookChapVerseMatch (l : List Char) : Option (List Char × ℕ × ℕ) :=
  match matchBook l with
  | none => none
  | some (book, r1) =>
    let r2 := r1.dropWhile pySpace
    let d1 := r2.takeWhile Char.isDigit
    let r3 := r2.dropWhile Char.isDigit
    if d1.isEmpty then none
    else
      match r3 with
      | ':' :: r4 =>
        let d2 := r4.takeWhile Char.isDigit
        if d2.isEmpty then none else some (book, toNatL d1, toNatL d2)
      | _ => none

/-- re.match(r"(\d+):(\d+)", end_part): the bare chapter:verse prefix
pattern. -/
def chapVerseMatch (l : List Char) : Option (ℕ × ℕ) :=
  let d1 := l.takeWhile Char.isDigit
  let r1 := l.dropWhile Char.isDigit
  if d1.isEmpty then none
  else
    match r1 with
    | ':' :: r2 =>
      let d2 := r2.takeWhile Char.isDigit
      if d2.isEmpty then none else some (toNatL d1, toNatL d2)
    | _ => none

/-- int(end_part) under try/except ValueError: an optional plus sign and a
non-empty digit run (the input at this point has already been stripped and
contains no minus sign, since it came from splitting on "-"). -/
def pyIntOpt (l : List Char) : Option ℕ :=
  let core := match l with
    | '+' :: t => t
    | _ => l
  if !core.isEmpty && core.all Char.isDigit then some (toNatL core) else none

/-- The kind tag of the Python result tuples. -/
inductive RefKind
  | chapter_range
  | chapter_only
  | verse_range
  | cross_chapter_range
  | single_verse
deriving DecidableEq

/-- The possible parse_reference results: the five-element tuples, the
six-element cross-chapter tuple, a list of results for a comma-separated
reference, with none standing for Python None. -/
inductive ParsedRef
  | range5 (book chap v1 v2 : ℕ) (kind : RefKind)
  | range6 (book c1 v1 c2 v2 : ℕ)
  | multi (rs : List (Option ParsedRef))

/-- The outcome of the "-" handling block: an explicit return (of a result
or of None), or falling through to the single-verse pattern at the end of
the function. -/
inductive Branch3
  | ret (r : Option ParsedRef)
  | fall

/-- The body of the "-" branch of parse_reference, mirroring its returns
and fall-throughs: a two-part split whose start parses as book chapter:verse
dispatches on the shape of the end part; every "if book_num:" without an
else falls through to the single-verse pattern when the book is unknown. -/
def dashBranch (ref : List Char) : Branch3 :=
  match ref.splitOn '-' with
  | [p1, p2] =>
    let startRef := stripL p1
    let endPart := stripL p2
    match bookChapVerseMatch startRef with
    | none => .fall
    | some (book, chap, sv) =>
      let bn := lookupBook book
      if endPart.contains ':' then
        match bookChapVerseMatch endPart with
        | some (ebook, echap, ev) =>
          if book = ebook then
            if chap = echap then
              match bn with
              | some b => .ret (some (.range5 b chap sv ev .verse_range))
              | none => .fall
            else
              match bn with
              | some b => .ret (some (.range6 b chap sv echap ev))
              | none => .fall
          else .ret none
        | none =>
          match chapVerseMatch endPart with
          | some (echap, ev) =>
            if chap ≠ echap then
              match bn with
              | some b => .ret (some (.range6 b chap sv echap ev))
              | none => .ret none
            else
              match bn with
              | some b => .ret (some (.range5 b chap sv ev .verse_range))
              | none => .fall
          | none => .ret none
      else
        match pyIntOpt endPart with
        | some ev =>
          match bn with
          | some b => .ret (some (.range5 b chap sv ev .verse_range))
          | none => .fall
        | none => .ret none
  | _ => .fall

/-- The final single-verse pattern of parse_reference (and the implicit
return None at the end of the function). -/
def singleVerseStep (ref : List Char) : Option ParsedRef :=
  match bookChapVerseMatch ref with
  | some (book, c, v) =>
    match lookupBook book with
    | some bn => some (.range5 bn c v v .single_verse)
    | none => none
  | none => none

/-- The "-" dispatch: only attempted when the reference contains a dash;
explicit returns stand, fall-throughs reach the single-verse pattern. -/
def dashStep (ref : List Char) : Option ParsedRef :=
  if ref.contains '-' then
    match dashBranch ref with
    | .ret r => r
    | .fall => singleVerseStep ref
  else singleVerseStep ref

/-- The chapter-only attempt, falling through on no match or unknown book. -/
def chapterOnlyStep (ref : List Char) : Option ParsedRef :=
  match chapterOnlyMatch ref with
  | some (book, c) =>
    match lookupBook book with
    | some bn => some (.range5 bn c 1 c .chapter_only)
    | none => dashStep ref
  | none => dashStep ref

/-- The chapter-range attempt, falling through on no match or unknown
book. -/
def chapterRangeStep (ref : List Char) : Option ParsedRef :=
  match chapterRangeMatch ref with
  | some (book, c1, c2) =>
    match lookupBook book with
    | some bn => some (.range5 bn c1 1 c2 .chapter_range)
    | none => chapterOnlyStep ref
  | none => chapterOnlyStep ref

/-- parse_reference with fuel for the comma recursion: each comma part of a
normalized reference contains no comma, so recursion depth is at most two
and the fuel (the input length plus one) never runs out. -/
def parseRefGo : ℕ → String → Option ParsedRef
  | 0, _ => none
  | fuel + 1, reference =>
    let ref := normalizeRef reference
    if ref.data.contains ',' then
      some (.multi
        (((ref.data.splitOn ',').map stripL).filter (fun p => !p.isEmpty)
          |>.map (fun p => parseRefGo fuel ⟨p⟩)))
    else chapterRangeStep ref.data

/-- ScriptureFetcher.parse_reference. -/
def parseReference (reference : String) : Option ParsedRef :=
  parseRefGo (reference.length + 1) reference

end FetchScriptures

/-! ## Helper lemmas -/

theorem digit_not_pySpace (c : Char) (h : c.isDigit = true) : pySpace c = false := by
  cases hc : pySpace c
  · rfl
  · exfalso
    simp only [pySpace, Bool.or_eq_true, decide_eq_true_eq] at hc
    rcases hc with ((((rfl | rfl) | rfl) | rfl) | rfl) | rfl <;> simp [Char.isDigit] at h

theorem dropWhile_eq_self_of_not (p : Char → Bool) (l : List Char)
    (h : ∀ c ∈ l, p c = false) : l.dropWhile p = l := by
  cases l with
  | nil => rfl
  | cons c cs => simp [List.dropWhile, h c (by simp)]

theorem stripL_eq_self_of_no_space (l : List Char)
    (h : ∀ c ∈ l, pySpace c = false) : stripL l = l := by
  unfold stripL
  rw [dropWhile_eq_self_of_not _ _ h,
    dropWhile_eq_self_of_not _ _ (fun c hc => h c (List.mem_reverse.mp hc)),
    List.reverse_reverse]

theorem pyStrip_of_digits (t : String) (h : isdigitStr t = true) : pyStrip t = t := by
  have hall : ∀ c ∈ t.data, pySpace c = false := by
    intro c hc
    exact digit_not_pySpace c
      ((List.all_eq_true.mp (Bool.and_elim_right h)) c hc)
  show String.mk (stripL t.data) = t
  rw [stripL_eq_self_of_no_space _ hall]

/-! ## Claim theorems -/

/-- The 8.4-point footnote-marker font of the source, as an explicit
reduced fraction 42/5. -/
def markerSize : ℚ := ⟨42, 5, by decide, by decide⟩

/-- The token stream of the C1 example: the three body spans in body-size
font and the two footnote markers in the 8.4-point marker font. -/
def c1Stream : List FontFiltering.Span :=
  [⟨"Man\x27s chief end is to glorify God,", 10⟩, ⟨"1", markerSize⟩,
   ⟨" and to enjoy him", 10⟩, ⟨"2", markerSize⟩, ⟨" for ever.", 10⟩]

/-- C1 counterexample: on the stream of the claim, extract_clauses_from_answer
produces THREE clauses, pairing each marker number with the clause that
follows it (first clause null, then 1, then 2), not the two clauses the claim
states, and there IS a leading null-footnote clause. -/
theorem c1_counterexample :
    FontFiltering.extractClausesFromAnswer c1Stream =
      [⟨"Man\x27s chief end is to glorify God,", none⟩,
       ⟨"and to enjoy him", some 1⟩, ⟨"for ever.", some 2⟩] ∧
    FontFiltering.extractClausesFromAnswer c1Stream ≠
      [⟨"Man\x27s chief end is to glorify God,", some 1⟩,
       ⟨"and to enjoy him for ever.", some 2⟩] :=
  ⟨by decide, by decide⟩

/-- C1 amended: given the body-token stream of the claim,
extract_clauses_from_answer produces exactly three clauses, the text before
MARKER(1) with a null footnote number, then "and to enjoy him" with footnote
number 1, then "for ever." with footnote number 2: each marker number is
attached to the clause that follows the marker. -/
theorem c1_amended :
    FontFiltering.extractClausesFromAnswer c1Stream =
      [⟨"Man\x27s chief end is to glorify God,", none⟩,
       ⟨"and to enjoy him", some 1⟩, ⟨"for ever.", some 2⟩] := by decide

/-- C10: a purely numeric span with font size 9.0 <= s < 9.5 falls in the
classification gap: the page-number filter (which requires s >= 9.5) keeps
it, and the clause loop does not treat it as a footnote marker (which
requires s < 9.0) but appends it to the current clause buffer as body text,
leaving the current footnote number unchanged. -/
theorem c10_numeric_gap (t : String) (s : ℚ) (ht : isdigitStr t = true)
    (h9 : (9 : ℚ) ≤ s) (h95 : s < FontFiltering.pageNumberSize) :
    FontFiltering.collectAnswerSpans [⟨t, s⟩] = [⟨t, s⟩] ∧
    ∀ rest buf fn, FontFiltering.extractLoop (⟨t, s⟩ :: rest) buf fn
      = FontFiltering.extractLoop rest (buf ++ " " ++ t) fn := by
  constructor
  · simp only [FontFiltering.collectAnswerSpans, List.filterMap]
    rw [pyStrip_of_digits t ht]
    rw [if_neg (by intro hh; exact absurd hh.2 (not_le.mpr h95))]
  · intro rest buf fn
    have hm : FontFiltering.isMarkerSpan ⟨t, s⟩ = false := by
      simp only [FontFiltering.isMarkerSpan, Bool.and_eq_false_iff]
      right
      simpa using not_lt.mpr h9
    simp only [FontFiltering.extractLoop, hm]
    rw [if_neg (by simp)]

/-- The 9.2-point witness font size, inside the classification gap. -/
def gapSize : ℚ := ⟨46, 5, by decide, by decide⟩

/-- C10 witness: the numeric span "12" at 9.2 points survives the filter and
is appended to the buffer. -/
theorem c10_witness :
    FontFiltering.collectAnswerSpans [⟨"12", gapSize⟩] = [⟨"12", gapSize⟩] ∧
    FontFiltering.extractLoop [⟨"12", gapSize⟩] "x" none
      = FontFiltering.extractLoop [] ("x" ++ " " ++ "12") none :=
  ⟨(c10_numeric_gap "12" gapSize (by decide) (by decide) (by decide)).1,
   (c10_numeric_gap "12" gapSize (by decide) (by decide) (by decide)).2 [] "x" none⟩

/-- C4: an answer with zero footnote markers yields exactly one clause in
each of the three cited implementations: the font-filtering loop emits the
whole (non-blank) buffer with a null footnote; v5 split followed by
populate_proof_texts gives one clause with the stripped answer, null
footnote number and an empty proof-text list; the larger-catechism split
with no valid footnote positions gives one clause with the stripped answer
and a null footnote. -/
theorem c4_zero_markers :
    (∀ spans : List FontFiltering.Span,
      (∀ sp ∈ spans, FontFiltering.isMarkerSpan sp = false) →
      pyStrip (FontFiltering.bufOf "" spans) ≠ "" →
      FontFiltering.extractLoop spans "" none
        = [⟨cleanText (FontFiltering.bufOf "" spans), none⟩]) ∧
    (∀ (fns : List (ℕ × List FixV5.PT)) (answer : String),
      FixV5.populateProofTexts (FixV5.splitAnswerIntoClauses answer []) fns
        = [⟨pyStrip answer, none, []⟩]) ∧
    (∀ answer : String, LCClauses.footnotePositions answer = [] →
      LCClauses.lcSplit answer = [⟨pyStrip answer, none⟩]) := by
  refine ⟨?_, ?_, ?_⟩
  · intro spans hns hne
    have := FontFiltering.extractLoop_bodyChunk spans [] "" none hns
    rw [List.append_nil] at this
    rw [this]
    simp only [FontFiltering.extractLoop]
    rw [if_pos hne]
  · intro fns answer
    rfl
  · intro answer h
    unfold LCClauses.lcSplit
    rw [h]

/-- C4 witness: concrete no-marker inputs for all three implementations. -/
theorem c4_witness :
    FontFiltering.extractLoop [⟨"hello", 10⟩] "" none
      = [⟨cleanText (FontFiltering.bufOf "" [⟨"hello", 10⟩]), none⟩] ∧
    FixV5.populateProofTexts (FixV5.splitAnswerIntoClauses "hello" [])
        [(1, [⟨"Genesis 1:1", "In the beginning"⟩])]
      = [⟨pyStrip "hello", none, []⟩] ∧
    LCClauses.lcSplit "hello" = [⟨pyStrip "hello", none⟩] :=
  ⟨c4_zero_markers.1 [⟨"hello", 10⟩] (by decide) (by decide),
   c4_zero_markers.2.1 [(1, [⟨"Genesis 1:1", "In the beginning"⟩])] "hello",
   c4_zero_markers.2.2 "hello" (by decide)⟩

/-- C2 counterexample: in extract_clauses_from_answer, the stream
[BODY "alpha", MARKER(1), BODY "beta"] yields the buffer "alpha" paired with
a NULL footnote number (not with 1 as the claim states), and the final
buffer "beta" paired with footnote number 1 (not null). -/
theorem c2_counterexample :
    FontFiltering.extractClausesFromAnswer
        [⟨"alpha", 10⟩, ⟨"1", markerSize⟩, ⟨"beta", 10⟩]
      = [⟨"alpha", none⟩, ⟨"beta", some 1⟩] ∧
    ([⟨"alpha", none⟩, ⟨"beta", some 1⟩] : List FontFiltering.Clause)
      ≠ [⟨"alpha", some 1⟩, ⟨"beta", none⟩] :=
  ⟨by decide, by decide⟩

/-- C2 amended: the two cited segmenters disagree.  In
extract_clauses_from_answer, the buffer emitted at each marker carries the
PREVIOUS marker's number (null before the first marker), and the final
buffer carries the LAST marker's number (first conjunct, over any
decomposed stream).  In split_answer_into_clauses of fix_proof_texts_v5 the
claim's behaviour holds: each clause of the main loop carries the number of
the marker that closes it (second conjunct), and when the remaining text
after the last marker is non-blank and contains no further endnote marker it
is emitted as one final clause with a null footnote number (third
conjunct). -/
theorem c2_amended :
    (∀ (segs : List (FontFiltering.Span × List FontFiltering.Span))
       (buf : String) (fn : Option ℕ),
      (∀ p ∈ segs, FontFiltering.isMarkerSpan p.1 = true ∧
        ∀ sp ∈ p.2, FontFiltering.isMarkerSpan sp = false) →
      FontFiltering.extractLoop (FontFiltering.flatSegs segs) buf fn
        = FontFiltering.ffExpected fn buf segs) ∧
    (∀ (ans : List Char) (cur : ℕ) (mps : List (ℕ × ℕ)),
      (FixV5.mainLoop ans cur mps).1.map (·.footnoteNum)
        = mps.map (fun p => some p.2)) ∧
    (∀ (answer : String) (markers : List ℕ) (mainCs : List FixV5.V5Clause) (cur : ℕ),
      markers ≠ [] →
      FixV5.mainLoop answer.data 0
          (FixV5.sortByPos (FixV5.markerPositions answer markers)) = (mainCs, cur) →
      FixV5.extractEndnoteMarkers (pyStrip ⟨answer.data.drop cur⟩) = [] →
      pyStrip ⟨answer.data.drop cur⟩ ≠ "" →
      FixV5.splitAnswerIntoClauses answer markers
        = mainCs ++ [⟨pyStrip ⟨answer.data.drop cur⟩, none, []⟩]) := by
  refine ⟨fun segs buf fn hm => FontFiltering.extractLoop_segs segs buf fn hm, ?_, ?_⟩
  · intro ans cur mps
    induction mps generalizing cur with
    | nil => rfl
    | cons p rest ih =>
      obtain ⟨pos, m⟩ := p
      simp only [FixV5.mainLoop, List.map_cons]
      rw [ih]
  · intro answer markers mainCs cur hm hmain hrm hne
    have hlt : cur < answer.data.length := by
      by_contra hge
      apply hne
      rw [List.drop_eq_nil_of_le (le_of_not_lt hge)]
      rfl
    have htail : FixV5.tailClauses answer.data cur
        = [⟨pyStrip ⟨answer.data.drop cur⟩, none, []⟩] := by
      unfold FixV5.tailClauses
      rw [if_pos hlt, if_pos hne, hrm]
    unfold FixV5.splitAnswerIntoClauses
    rw [if_neg hm, hmain]
    show mainCs ++ FixV5.tailClauses answer.data cur = _
    rw [htail]

/-- C2 witness: the amended behaviours at concrete inputs, one marker
segment for the font-filtering loop and the answer "a 1 b" with marker 1
for v5. -/
theorem c2_witness :
    FontFiltering.extractLoop
        (FontFiltering.flatSegs [(⟨"1", markerSize⟩, [⟨"beta", 10⟩])]) "" none
      = FontFiltering.ffExpected none "" [(⟨"1", markerSize⟩, [⟨"beta", 10⟩])] ∧
    FixV5.splitAnswerIntoClauses "a 1 b" [1]
      = [⟨"a", some 1, []⟩] ++ [⟨pyStrip ⟨"a 1 b".data.drop 3⟩, none, []⟩] :=
  ⟨c2_amended.1 [(⟨"1", markerSize⟩, [⟨"beta", 10⟩])] "" none (by decide),
   c2_amended.2.2 "a 1 b" [1] [⟨"a", some 1, []⟩] 3
     (by decide) (by decide) (by decide) (by decide)⟩

theorem all_zip_map {A B : Type} (l : List A) (f : A → B) (p : A × B → Bool) :
    (l.zip (l.map f)).all p = l.all (fun a => p (a, f a)) := by
  induction l with
  | nil => rfl
  | cons a l ih => simp only [List.map_cons, List.zip_cons_cons, List.all_cons, ih]

/-- C3: for every input data set, verify_text_preservation accepts the
clause split of the data exactly when, for every question, the whitespace
normalization of the space-join of its clause texts equals the whitespace
normalization of its full answer text; the main gate (claim C6) writes the
assembled document only when this check accepts, so the invariant holds of
every assembled document. -/
theorem c3_text_preservation (data : List LCClauses.QA) :
    LCClauses.verifyTextPreservation data (LCClauses.clausesOf data) = true ↔
    ∀ q ∈ data, cleanText q.answer
      = cleanText (String.intercalate " " ((LCClauses.lcSplit q.answer).map (·.text))) := by
  unfold LCClauses.verifyTextPreservation LCClauses.clausesOf
  rw [all_zip_map]
  simp only [List.all_eq_true, decide_eq_true_eq]

theorem dupScan_fst_mem (l : List ℕ) : ∀ (seen dups : List ℕ) (x : ℕ),
    x ∈ (LCClauses.dupScan l seen dups).1 ↔ x ∈ seen ∨ x ∈ l := by
  induction l with
  | nil => intro seen dups x; simp [LCClauses.dupScan]
  | cons n ns ih =>
    intro seen dups x
    by_cases h : n ∈ seen
    · rw [LCClauses.dupScan, if_pos h, ih]
      simp only [List.mem_cons]
      constructor
      · rintro (hx | hx)
        · exact Or.inl hx
        · exact Or.inr (Or.inr hx)
      · rintro (hx | rfl | hx)
        · exact Or.inl hx
        · exact Or.inl h
        · exact Or.inr hx
    · rw [LCClauses.dupScan, if_neg h, ih]
      simp only [List.mem_append, List.mem_cons, List.not_mem_nil, or_false]
      tauto

theorem dupScan_snd_nil (l : List ℕ) : ∀ (seen dups : List ℕ),
    (LCClauses.dupScan l seen dups).2 = [] ↔
      dups = [] ∧ l.Nodup ∧ ∀ x ∈ l, x ∉ seen := by
  induction l with
  | nil => intro seen dups; simp [LCClauses.dupScan]
  | cons n ns ih =>
    intro seen dups
    by_cases h : n ∈ seen
    · rw [LCClauses.dupScan, if_pos h, ih]
      constructor
      · rintro ⟨habs, -, -⟩
        exact absurd habs (by simp)
      · rintro ⟨-, -, hall⟩
        exact absurd h (hall n (by simp))
    · rw [LCClauses.dupScan, if_neg h, ih]
      constructor
      · rintro ⟨hd, hnd, hs⟩
        refine ⟨hd, List.nodup_cons.mpr ⟨fun hn => ?_, hnd⟩, ?_⟩
        · exact (hs n hn) (by simp)
        · intro x hx
          rcases List.mem_cons.mp hx with rfl | hx
          · exact h
          · intro hxs
            exact (hs x hx) (by simp [hxs])
      · rintro ⟨hd, hnd, hs⟩
        obtain ⟨hn, hnd'⟩ := List.nodup_cons.mp hnd
        refine ⟨hd, hnd', ?_⟩
        intro x hx hxs
        rcases List.mem_append.mp hxs with hxs | hxs
        · exact (hs x (by simp [hx])) hxs
        · rw [List.mem_singleton] at hxs
          subst hxs
          exact hn hx

theorem missingFootnotes_nil_iff (qs : List LCClauses.QC) :
    LCClauses.missingFootnotes qs = [] ↔
      ∀ n : ℕ, 1 ≤ n → n ≤ 1303 → n ∈ LCClauses.collectedFootnotes qs := by
  unfold LCClauses.missingFootnotes
  rw [List.filter_eq_nil_iff]
  constructor
  · intro h n h1 h2
    have hn : n ∈ List.range' 1 1303 :=
      List.mem_range'_1.mpr ⟨h1, by omega⟩
    have := h n hn
    simp only [decide_eq_true_eq, not_not] at this
    unfold LCClauses.seenFootnotes at this
    rcases (dupScan_fst_mem _ _ _ _).mp this with hx | hx
    · simp at hx
    · exact hx
  · intro h n hn
    obtain ⟨h1, h2⟩ := List.mem_range'_1.mp hn
    simp only [decide_eq_true_eq, not_not]
    unfold LCClauses.seenFootnotes
    exact (dupScan_fst_mem _ _ _ _).mpr (Or.inr (h n h1 (by omega)))

theorem duplicateFootnotes_nil_iff (qs : List LCClauses.QC) :
    LCClauses.duplicateFootnotes qs = [] ↔ (LCClauses.collectedFootnotes qs).Nodup := by
  unfold LCClauses.duplicateFootnotes
  rw [dupScan_snd_nil]
  simp

/-- C5 counterexample: extract_shorter_catechism_font_based, given footnotes
numbered 1, 2 and 4, computes the gap [3] yet continues the run and writes
its output file (some result) instead of failing the extraction. -/
theorem c5_counterexample :
    ShorterFontBased.shorterGapCheck [1, 2, 4] = some [3] := by decide

/-- C5 amended: in extract_larger_catechism_clauses the footnote check is a
hard gate: verify_clause_extraction accepts exactly when the clause count
matches, every number of the a-priori range 1..1303 is covered, and no
footnote number occurs twice (first conjunct; the offending numbers are the
computed missingFootnotes and duplicateFootnotes lists).  In
extract_shorter_catechism_font_based, however, the gap check only prints the
numbers missing between the observed minimum and maximum and the run always
continues to write output when any footnotes were found (second
conjunct). -/
theorem c5_amended :
    (∀ qs : List LCClauses.QC,
      LCClauses.verifyClauseExtraction qs = true ↔
        (LCClauses.totalClauses qs = 1303 + LCClauses.answersWithoutFootnotes qs ∧
         (∀ n : ℕ, 1 ≤ n → n ≤ 1303 → n ∈ LCClauses.collectedFootnotes qs) ∧
         (LCClauses.collectedFootnotes qs).Nodup)) ∧
    (∀ nums : List ℕ, nums ≠ [] →
      (ShorterFontBased.shorterGapCheck nums).isSome = true) := by
  constructor
  · intro qs
    unfold LCClauses.verifyClauseExtraction
    split_ifs with h1 h2 h3
    · constructor
      · intro habs; exact absurd habs (by simp)
      · rintro ⟨hc, -, -⟩; exact absurd hc h1
    · constructor
      · intro habs; exact absurd habs (by simp)
      · rintro ⟨-, hcov, -⟩
        exact h2 ((missingFootnotes_nil_iff qs).mpr hcov)
    · constructor
      · intro habs; exact absurd habs (by simp)
      · rintro ⟨-, -, hnd⟩
        exact h3 ((duplicateFootnotes_nil_iff qs).mpr hnd)
    · simp only [not_ne_iff] at h1 h2 h3
      constructor
      · intro _
        exact ⟨h1, (missingFootnotes_nil_iff qs).mp h2,
          (duplicateFootnotes_nil_iff qs).mp h3⟩
      · intro _; rfl
  · intro nums h
    match nums with
    | [] => exact absurd rfl h
    | n :: ns => rfl

/-- C5 witness: the gap check on a single footnote continues the run. -/
theorem c5_witness : (ShorterFontBased.shorterGapCheck [2]).isSome = true :=
  c5_amended.2 [2] (by decide)

/-- C6 counterexample: fix_proof_texts_v5 writes its output file even when a
footnote lookup fails: with an empty footnote table and the answer
"alpha 5 beta", the run still produces (writes) an output in which the
missing footnote 5 is merely recorded in the diagnostics and the clause
carries the sentinel proof text - a partial, degraded output, not an
aborted run. -/
theorem c6_counterexample :
    FixV5.fixAllProofTexts [] ["alpha 5 beta"]
      = some ⟨[[⟨"alpha", some 5,
          [⟨"ERROR: Footnote not found",
            "Footnote 5 not found in extracted footnotes"⟩]⟩,
         ⟨"beta", none, []⟩]], [5]⟩ := by decide

/-- C6 amended: the all-or-nothing gate holds for
extract_larger_catechism_clauses: if any of the three checks (input count,
footnote coverage, text preservation) rejects, main writes no output (first
conjunct).  fix_proof_texts_v5, by contrast, runs no such gate and writes
its output unconditionally (second conjunct). -/
theorem c6_amended :
    (∀ data : List LCClauses.QA,
      (LCClauses.verifyInputData data = false ∨
       LCClauses.verifyClauseExtraction (LCClauses.clausesOf data) = false ∨
       LCClauses.verifyTextPreservation data (LCClauses.clausesOf data) = false) →
      LCClauses.mainRun data = none) ∧
    (∀ (fns : List (ℕ × List FixV5.PT)) (answers : List String),
      (FixV5.fixAllProofTexts fns answers).isSome = true) := by
  constructor
  · intro data h
    unfold LCClauses.mainRun
    rcases h with h | h | h <;> simp [h]
  · intro fns answers
    rfl

/-- C6 witness: the empty data set fails the count check and main writes
nothing. -/
theorem c6_witness : LCClauses.mainRun [] = none :=
  c6_amended.1 [] (Or.inl (by decide))

/-- C7 counterexample: the sentinel attached to a clause whose nonzero
footnote number is absent from the table has reference
"ERROR: Footnote not found" with the diagnostic text, not the reference
"NOT FOUND" the claim states. -/
theorem c7_counterexample :
    FixV5.populateProofTexts [⟨"t", some 5, []⟩] []
      = [⟨"t", some 5, [⟨"ERROR: Footnote not found",
          "Footnote 5 not found in extracted footnotes"⟩]⟩] ∧
    "ERROR: Footnote not found" ≠ "NOT FOUND" :=
  ⟨by decide, by decide⟩

/-- C7 amended: populate_proof_texts never changes a clause's text or
footnote number; a null footnote number receives an empty proof-text list; a
nonzero footnote number present in the table receives the table's list; a
nonzero footnote number absent from the table receives exactly one sentinel
proof text with reference "ERROR: Footnote not found" and the diagnostic
message (the document is not failed: the clause list keeps its length, last
conjunct).  Python's truthiness test makes a footnote number of 0 take the
empty-list branch like null, hence the nonzero requirement. -/
theorem c7_amended (fns : List (ℕ × List FixV5.PT)) (c : FixV5.V5Clause) :
    ((FixV5.populateClause fns c).text = c.text ∧
     (FixV5.populateClause fns c).footnoteNum = c.footnoteNum) ∧
    (c.footnoteNum = none → (FixV5.populateClause fns c).proofTexts = []) ∧
    (∀ n pts, c.footnoteNum = some n → n ≠ 0 → dlookup fns n = some pts →
      (FixV5.populateClause fns c).proofTexts = pts) ∧
    (∀ n, c.footnoteNum = some n → n ≠ 0 → dlookup fns n = none →
      (FixV5.populateClause fns c).proofTexts
        = [⟨"ERROR: Footnote not found",
            "Footnote " ++ toString n ++ " not found in extracted footnotes"⟩]) ∧
    (∀ cs : List FixV5.V5Clause,
      (FixV5.populateProofTexts cs fns).length = cs.length) := by
  refine ⟨?_, ?_, ?_, ?_, ?_⟩
  · cases hc : c.footnoteNum with
    | none => simp [FixV5.populateClause, hc]
    | some n =>
      by_cases hn : n = 0
      · subst hn
        simp [FixV5.populateClause, hc]
      · cases hl : dlookup fns n with
        | none => simp [FixV5.populateClause, hc, hn, hl]
        | some pts => simp [FixV5.populateClause, hc, hn, hl]
  · intro h
    simp [FixV5.populateClause, h]
  · intro n pts hc hn hl
    simp [FixV5.populateClause, hc, hn, hl]
  · intro n hc hn hl
    simp [FixV5.populateClause, hc, hn, hl]
  · intro cs
    unfold FixV5.populateProofTexts
    exact List.length_map cs _

/-- C7 witness: a present footnote receives the table's proof texts. -/
theorem c7_witness :
    (FixV5.populateClause [(3, [⟨"Genesis 1:1", "In the beginning"⟩])]
        ⟨"x", some 3, []⟩).proofTexts = [⟨"Genesis 1:1", "In the beginning"⟩] :=
  (c7_amended [(3, [⟨"Genesis 1:1", "In the beginning"⟩])] ⟨"x", some 3, []⟩).2.2.1
    3 [⟨"Genesis 1:1", "In the beginning"⟩] rfl (by decide) (by decide)

theorem dlookup_append_singleton {κ α : Type} [DecidableEq κ]
    (l : List (κ × α)) (k : κ) (v : α) :
    dlookup (l ++ [(k, v)]) k = some v := by
  unfold dlookup
  rw [List.reverse_append]
  simp [List.find?]

/-- The request arrival times of the C8 counterexample: seven requests at
t = 100, seven at t = 110 (counter reaches 14), then fourteen at t = 131.
At t = 131 the window is 31 seconds old, so the limiter resets the counter
WITHOUT sleeping and lets all fourteen through at once. -/
def c8arrivals : List ℚ :=
  List.replicate 7 100 ++ List.replicate 7 110 ++ List.replicate 14 131

/-- C8 counterexample: in the run with arrivals c8arrivals, the 30-second
window starting at t = 105 contains the seven requests issued at t = 110 and
the fourteen issued at t = 131 - twenty-one requests, more than the claimed
bound of 14.  The fixed-window reset (no sleep once 30 seconds have passed)
does not bound sliding 30-second windows. -/
theorem c8_counterexample :
    14 < Scraper.windowCount (Scraper.runIssues Scraper.initRL c8arrivals) 105 := by
  norm_num [Scraper.windowCount, Scraper.runIssues, Scraper.rateLimitStep,
    Scraper.initRL, c8arrivals, List.replicate, List.filter]

/-- C8 amended: the limiter bounds its own windows, not sliding ones: after
any request the in-window counter is at most 14 (first conjunct), and a
request arriving when the counter has reached 14 and the window is at most
30 seconds old is delayed (the caller sleeps) until exactly 31 seconds past
the window start (second conjunct); a reference found in the cache is
answered without issuing an HTTP request and without touching any state
(third conjunct), and in particular a second lookup of a reference fetched
successfully earlier in the run is answered from the cache with no request
(fourth conjunct). -/
theorem c8_amended :
    (∀ (s : Scraper.RL) (now : ℚ), ((Scraper.rateLimitStep s now).2).count ≤ 14) ∧
    (∀ (s : Scraper.RL) (now : ℚ), 14 ≤ s.count → now - s.last ≤ 30 →
      (Scraper.rateLimitStep s now).1 = s.last + 31) ∧
    (∀ (f : Scraper.Fetcher) (ref : String) (now : ℚ) (api : Option String)
       (t : String),
      dlookup f.cache ref = some t →
      Scraper.getVerseText f ref now api = (some t, f, false)) ∧
    (∀ (cache : List (String × String)) (rl : Scraper.RL) (ref : String)
       (now now2 : ℚ) (api2 : Option String) (r : String),
      dlookup cache ref = none →
      Scraper.getVerseText ((Scraper.getVerseText ⟨cache, rl⟩ ref now (some r)).2.1)
          ref now2 api2
        = (some r, (Scraper.getVerseText ⟨cache, rl⟩ ref now (some r)).2.1, false)) := by
  refine ⟨?_, ?_, ?_, ?_⟩
  · intro s now
    by_cases h : now - s.last > 30
    · simp [Scraper.rateLimitStep, h]
    · by_cases h14 : s.count ≥ 14
      · have hs : (0 : ℚ) < 31 - (now - s.last) := by
          have := not_lt.mp h
          linarith
        simp [Scraper.rateLimitStep, h, h14, hs]
      · simp only [Scraper.rateLimitStep, if_neg h]
        rw [if_neg h14]
        simp only []
        omega
  · intro s now h14 h30
    have hng : ¬(now - s.last > 30) := not_lt.mpr h30
    have hs : (0 : ℚ) < 31 - (now - s.last) := by linarith
    simp [Scraper.rateLimitStep, hng, ge_iff_le, h14, hs]
    ring
  · intro f ref now api t h
    simp [Scraper.getVerseText, h]
  · intro cache rl ref now now2 api2 r h
    have hf : (Scraper.getVerseText ⟨cache, rl⟩ ref now (some r)).2.1
        = ⟨cache ++ [(ref, r)], (Scraper.rateLimitStep rl now).2⟩ := by
      simp [Scraper.getVerseText, h]
    rw [hf]
    simp [Scraper.getVerseText, dlookup_append_singleton]

/-- C8 witness: the blocking and caching behaviours at concrete inputs: a
fetcher that has counted 14 requests in a window starting at time 0 issues
the next request, arriving at time 0, only at time 31; a cached reference
is answered without a request; an uncached reference fetched once is served
from the cache on the second lookup. -/
theorem c8_witness :
    (Scraper.rateLimitStep ⟨14, 0⟩ 0).1 = 0 + 31 ∧
    Scraper.getVerseText ⟨[("John 3:16", "For God so loved the world")], Scraper.initRL⟩
        "John 3:16" 50 none
      = (some "For God so loved the world",
         ⟨[("John 3:16", "For God so loved the world")], Scraper.initRL⟩, false) ∧
    Scraper.getVerseText ((Scraper.getVerseText ⟨[], Scraper.initRL⟩
          "Psalms 19:1" 100 (some "The heavens declare")).2.1)
        "Psalms 19:1" 101 none
      = (some "The heavens declare",
         (Scraper.getVerseText ⟨[], Scraper.initRL⟩
           "Psalms 19:1" 100 (some "The heavens declare")).2.1, false) :=
  ⟨c8_amended.2.1 ⟨14, 0⟩ 0 (by decide) (by simp),
   c8_amended.2.2.1 ⟨[("John 3:16", "For God so loved the world")], Scraper.initRL⟩
     "John 3:16" 50 none "For God so loved the world" (by decide),
   c8_amended.2.2.2 [] Scraper.initRL "Psalms 19:1" 100 101 none
     "The heavens declare" (by decide)⟩

/-- C9: reference normalization does NOT map "1Cor.1.21" and
"1 Corinthians 1:21" to the same canonical citation: the dotted form parses
to the single-verse tuple (46, 1, 21, 21) for 1 Corinthians, but the spaced
form parses to None, because every book pattern is ([1-3]?[a-z]+), which
admits no space between the leading digit and the book word.  The book
mapping itself contains the key "1 corinthians" (third conjunct), and the
dict entry is unreachable through these patterns - the code contradicts its
own book table, so this is a code bug rather than a spec error. -/
theorem c9_spaced_book_name :
    FetchScriptures.parseReference "1Cor.1.21"
      = some (.range5 46 1 21 21 .single_verse) ∧
    FetchScriptures.parseReference "1 Corinthians 1:21" = none ∧
    dlookup FetchScriptures.bookNames "1 corinthians" = some 46 :=
  ⟨rfl, rfl, rfl⟩
